import Mathlib

/-!
Shallow embedding of the budget-tracker backend (src/backend/server.js) and
its transactions table (src/database/postgres-schema.sql).

JavaScript numbers are idealised as rationals (JSON numbers carry no NaN;
the NaN produced by parseFloat is modelled as `none`).  Dates travel as
strings and compare lexicographically, matching ISO dates in both SQL
dialects.  The SQLite and PostgreSQL branches of each handler are
observably equivalent at the JSON interface; the embedding models that
common behaviour.  A possibly failing database is modelled by an
`Option String` argument: `some e` means the first query executed by the
handler rejects with message `e`.
-/

/-- A JavaScript value as it can appear in a parsed JSON request body
(plus `undefined` for an absent field).  `Infinity` is not modelled:
the claims only exercise finite numbers and ordinary strings. -/
inductive JsVal where
  | undefined : JsVal
  | null : JsVal
  | bool : Bool → JsVal
  | num : ℚ → JsVal
  | str : String → JsVal
deriving DecidableEq

/-- JavaScript truthiness: `undefined`, `null`, `false`, `0` and the empty
string are falsy; everything else is truthy. -/
def truthy : JsVal → Bool
  | .undefined => false
  | .null => false
  | .bool b => b
  | .num q => q != 0
  | .str s => s != ""

/-- Truthiness of an optional string (absent and empty are falsy),
used for `name`, `description` and for Express query parameters. -/
def optTruthy : Option String → Bool
  | none => false
  | some s => s != ""

/-- Numeric value of a list of decimal digit characters. -/
def digitsVal (l : List Char) : ℕ :=
  l.foldl (fun acc c => 10 * acc + (c.toNat - 48)) 0

/-- JavaScript `parseFloat` on a character list: skip leading whitespace,
optional sign, integer digits, optional fraction, optional exponent;
`none` models NaN (no digits found).  Trailing garbage is ignored. -/
def parseFloatChars (l : List Char) : Option ℚ :=
  let l := l.dropWhile (fun c => c = ' ' || c = '\t' || c = '\n' || c = '\r')
  let sign : ℚ := match l with | '-' :: _ => -1 | _ => 1
  let l := match l with | '-' :: r => r | '+' :: r => r | _ => l
  let ip := l.takeWhile Char.isDigit
  let l1 := l.dropWhile Char.isDigit
  let fp := match l1 with | '.' :: r => r.takeWhile Char.isDigit | _ => []
  let l2 := match l1 with | '.' :: r => r.dropWhile Char.isDigit | _ => l1
  if ip.isEmpty && fp.isEmpty then none
  else
    let mantissa : ℚ := (digitsVal ip : ℚ) + (digitsVal fp : ℚ) / (10 : ℚ) ^ fp.length
    let expDigits : List Char × Bool := match l2 with
      | 'e' :: '-' :: d => (d.takeWhile Char.isDigit, true)
      | 'e' :: '+' :: d => (d.takeWhile Char.isDigit, false)
      | 'e' :: d => (d.takeWhile Char.isDigit, false)
      | 'E' :: '-' :: d => (d.takeWhile Char.isDigit, true)
      | 'E' :: '+' :: d => (d.takeWhile Char.isDigit, false)
      | 'E' :: d => (d.takeWhile Char.isDigit, false)
      | _ => ([], false)
    let base : ℚ := sign * mantissa
    some (if expDigits.2 then base / (10 : ℚ) ^ digitsVal expDigits.1
          else base * (10 : ℚ) ^ digitsVal expDigits.1)

/-- JavaScript `parseFloat` on a string. -/
def parseFloatStr (s : String) : Option ℚ :=
  parseFloatChars s.data

/-- JavaScript `parseFloat` applied to a JSON value: the argument is first
coerced to a string (`parseFloat(true)`, `parseFloat(null)` and
`parseFloat(undefined)` are all NaN). -/
def parseFloatJs : JsVal → Option ℚ
  | .num q => some q
  | .str s => parseFloatStr s
  | _ => none

/-- A stored row of the `transactions` table.  `created_at` plays no part
in any endpoint and is omitted.  `payedOff` keeps the raw JSON value the
handler bound (the code passes `payedOff` through unchanged). -/
structure Txn where
  id : ℕ
  date : String
  name : Option String
  descr : Option String
  budget_type : String
  amount : ℚ
  payedOff : JsVal
deriving DecidableEq

/-- The database state: the table rows plus the next id the SERIAL /
sqlite `lastID` mechanism will hand out. -/
structure ServerState where
  rows : List Txn
  nextId : ℕ
deriving DecidableEq

/-- The id-generation invariant maintained by the database: every stored
id is below the next fresh id. -/
def WF (st : ServerState) : Prop :=
  ∀ t ∈ st.rows, t.id < st.nextId

/-- A POST/PUT request body, destructured as in the handlers.  `date`,
`name`, `description` and `budget_type` are optional strings (absent =
`undefined`); `amount` and `payedOff` keep full JSON generality because
the validation logic inspects them as JavaScript values. -/
structure Body where
  date : Option String := none
  name : Option String := none
  descr : Option String := none
  budget_type : Option String := none
  amount : JsVal := .undefined
  payedOff : JsVal := .undefined
deriving DecidableEq

/-- The `!date || !amount || !budget_type` required-fields check shared by
the create and update handlers. -/
def requiredMissing (b : Body) : Bool :=
  !(optTruthy b.date) || !(truthy b.amount) || !(optTruthy b.budget_type)

/-- `payedOff !== undefined ? payedOff : true`. -/
def payedOffValue (b : Body) : JsVal :=
  if b.payedOff = .undefined then .bool true else b.payedOff

/-- One row of the budget-type summary aggregate. -/
structure SummaryRow where
  budget_type : String
  transaction_count : ℕ
  total_amount : ℚ
  avg_amount : ℚ
  min_amount : ℚ
  max_amount : ℚ
deriving DecidableEq

/-- One row of the monthly summary aggregate. -/
structure MonthlyRow where
  month : String
  budget_type : String
  transaction_count : ℕ
  total_amount : ℚ
  avg_amount : ℚ
deriving DecidableEq

/-- One row of the category-breakdown aggregate. -/
structure CategoryRow where
  budget_type : String
  transaction_count : ℕ
  total_amount : ℚ
deriving DecidableEq

/-- One row of the trends aggregate. -/
structure TrendRow where
  month : String
  total_spending : ℚ
  transaction_count : ℕ
  avg_transaction : ℚ
deriving DecidableEq

/-- The single row of the overview statistics (SQL aggregates over a
possibly empty table yield NULL for SUM/AVG/MIN/MAX, hence the options). -/
structure StatsRow where
  total_transactions : ℕ
  total_amount : Option ℚ
  avg_amount : Option ℚ
  first_transaction : Option String
  last_transaction : Option String
  budget_types_count : ℕ
deriving DecidableEq

/-- The `data` payload of a response, one constructor per shape the
server produces. -/
inductive Payload where
  | txn : Txn → Payload
  | txns : List Txn → Payload
  | summary : List SummaryRow → Payload
  | monthly : List MonthlyRow → Payload
  | categories : List CategoryRow → Payload
  | trends : List TrendRow → Payload
  | stats : StatsRow → Payload
  | idObj : ℕ → Payload
  | strs : List String → Payload
deriving DecidableEq

/-- An HTTP response as the JSON object the server sends: `status` is the
HTTP status code; each optional field is present in the JSON exactly when
it is `some`. -/
structure Resp where
  status : ℕ
  success : Bool
  data : Option Payload
  error : Option String
  message : Option String
  count : Option ℕ
  database : Option String
deriving DecidableEq

/-- An error response `res.status(s).json({success:false, error:m})`. -/
def errResp (s : ℕ) (m : String) : Resp :=
  { status := s, success := false, data := none, error := some m,
    message := none, count := none, database := none }

/-- A success response with payload, optional message and optional count. -/
def okResp (s : ℕ) (p : Payload) (m : Option String) (c : Option ℕ) : Resp :=
  { status := s, success := true, data := some p, error := none,
    message := m, count := c, database := none }

/-- The health-check response: note it has no `data` field. -/
def healthResp : Resp :=
  { status := 200, success := true, data := none, error := none,
    message := some "API is running", count := none, database := some "SQLite" }

/-- Run the continuation unless the injected database error fires, in
which case the handler's catch produces a 500 with the raw message. -/
def queryOr (dbe : Option String) (st : ServerState) (ok : Resp × ServerState) :
    Resp × ServerState :=
  match dbe with
  | some e => (errResp 500 e, st)
  | none => ok

/-- Query parameters of `GET /api/transactions`.  Express hands each one
over as a string when present; `limit` and `offset` are `parseInt`-ed by
the handler and are modelled as the resulting naturals, with `none`
standing for an absent parameter (destructuring defaults 100 and 0). -/
structure ListQuery where
  budget_type : Option String := none
  start_date : Option String := none
  end_date : Option String := none
  limit : Option ℕ := none
  offset : Option ℕ := none
deriving DecidableEq

/-- The WHERE clause assembled by the list handler: each filter is added
only when its query parameter is truthy. -/
def matchesFilters (q : ListQuery) (t : Txn) : Bool :=
  (if optTruthy q.budget_type then t.budget_type = q.budget_type.getD "" else true) &&
  (if optTruthy q.start_date then q.start_date.getD "" ≤ t.date else true) &&
  (if optTruthy q.end_date then t.date ≤ q.end_date.getD "" else true)

/-- Ordering used by `ORDER BY date DESC`. -/
def dateDesc (a b : Txn) : Prop := b.date ≤ a.date

instance : DecidableRel dateDesc := fun a b => inferInstanceAs (Decidable (b.date ≤ a.date))

instance : IsTotal Txn dateDesc := ⟨fun a b => le_total b.date a.date⟩

instance : IsTrans Txn dateDesc := ⟨fun _ _ _ h1 h2 => le_trans h2 h1⟩

/-- The rows returned by the list query: filter, order by date
descending, skip `offset` (default 0), return at most `limit`
(default 100). -/
def listData (st : ServerState) (q : ListQuery) : List Txn :=
  (((st.rows.filter (matchesFilters q)).insertionSort dateDesc).drop
      (q.offset.getD 0)).take (q.limit.getD 100)

/-- `GET /api/transactions`. -/
def listTx (st : ServerState) (q : ListQuery) (dbe : Option String) :
    Resp × ServerState :=
  queryOr dbe st
    (okResp 200 (.txns (listData st q)) none (some (listData st q).length), st)

/-- `GET /api/transactions/:id` — all rows matching the id, 404 when
none, else the first. -/
def getTx (st : ServerState) (id : ℕ) (dbe : Option String) :
    Resp × ServerState :=
  queryOr dbe st
    (match st.rows.filter (fun t => t.id = id) with
     | [] => (errResp 404 "Transaction not found", st)
     | t :: _ => (okResp 200 (.txn t) none none, st))

/-- The error message of the shared required-fields check. -/
def missingMsg : String :=
  "Missing required fields: date, amount, and budget_type are required"

/-- The error message of the numeric-validity check. -/
def amountMsg : String := "Amount must be a valid number"

/-- The row a valid create request inserts. -/
def newTxn (st : ServerState) (b : Body) (q : ℚ) : Txn :=
  { id := st.nextId
    date := b.date.getD ""
    name := if optTruthy b.name then b.name else none
    descr := if optTruthy b.descr then b.descr else none
    budget_type := b.budget_type.getD ""
    amount := q
    payedOff := payedOffValue b }

/-- `POST /api/transactions`: required-fields check, numeric check,
insert with a fresh id, respond 201 with the created row. -/
def createTx (st : ServerState) (b : Body) (dbe : Option String) :
    Resp × ServerState :=
  if requiredMissing b then (errResp 400 missingMsg, st)
  else
    match parseFloatJs b.amount with
    | none => (errResp 400 amountMsg, st)
    | some q =>
      queryOr dbe st
        (let t := newTxn st b q
         (okResp 201 (.txn t) (some "Transaction created successfully") none,
          { rows := st.rows ++ [t], nextId := st.nextId + 1 }))

/-- The field overwrite a valid update request applies to a row. -/
def updTxn (b : Body) (q : ℚ) (t : Txn) : Txn :=
  { t with
    date := b.date.getD ""
    name := if optTruthy b.name then b.name else none
    descr := if optTruthy b.descr then b.descr else none
    budget_type := b.budget_type.getD ""
    amount := q
    payedOff := payedOffValue b }

/-- `PUT /api/transactions/:id`: same validation as create, then update
every row carrying the id; 404 when there is none, else 200 with the
updated row. -/
def updateTx (st : ServerState) (id : ℕ) (b : Body) (dbe : Option String) :
    Resp × ServerState :=
  if requiredMissing b then (errResp 400 missingMsg, st)
  else
    match parseFloatJs b.amount with
    | none => (errResp 400 amountMsg, st)
    | some q =>
      queryOr dbe st
        (match st.rows.filter (fun t => t.id = id) with
         | [] => (errResp 404 "Transaction not found", st)
         | t :: _ =>
           (okResp 200 (.txn (updTxn b q t)) (some "Transaction updated successfully") none,
            { st with rows := st.rows.map (fun x => if x.id = id then updTxn b q x else x) }))

/-- `DELETE /api/transactions/:id`: existence check (404 when absent),
then delete, respond with the echoed id. -/
def deleteTx (st : ServerState) (id : ℕ) (dbe : Option String) :
    Resp × ServerState :=
  queryOr dbe st
    (match st.rows.filter (fun t => t.id = id) with
     | [] => (errResp 404 "Transaction not found", st)
     | _ :: _ =>
       (okResp 200 (.idObj id) (some "Transaction deleted successfully") none,
        { st with rows := st.rows.filter (fun t => ¬ t.id = id) }))

/-- Sum of a list of rationals. -/
def qSum (l : List ℚ) : ℚ := l.foldl (· + ·) 0

/-- SQL MIN over a group (the group is never empty; 0 is a junk value
for the impossible empty case). -/
def qMin : List ℚ → ℚ
  | [] => 0
  | a :: as => as.foldl min a

/-- SQL MAX over a group. -/
def qMax : List ℚ → ℚ
  | [] => 0
  | a :: as => as.foldl max a

/-- The amounts of the transactions of one budget type. -/
def btAmounts (rows : List Txn) (bt : String) : List ℚ :=
  (rows.filter (fun t => t.budget_type = bt)).map (fun t => t.amount)

/-- One GROUP BY budget_type aggregate row. -/
def btStats (rows : List Txn) (bt : String) : SummaryRow :=
  { budget_type := bt
    transaction_count := (btAmounts rows bt).length
    total_amount := qSum (btAmounts rows bt)
    avg_amount := qSum (btAmounts rows bt) / (btAmounts rows bt).length
    min_amount := qMin (btAmounts rows bt)
    max_amount := qMax (btAmounts rows bt) }

/-- Ordering used by `ORDER BY total_amount DESC` on summary rows. -/
def sumDesc (a b : SummaryRow) : Prop := b.total_amount ≤ a.total_amount

instance : DecidableRel sumDesc := fun a b =>
  inferInstanceAs (Decidable (b.total_amount ≤ a.total_amount))

instance : IsTotal SummaryRow sumDesc := ⟨fun a b => le_total b.total_amount a.total_amount⟩

instance : IsTrans SummaryRow sumDesc := ⟨fun _ _ _ h1 h2 => le_trans h2 h1⟩

/-- The data of `GET /api/summary/budget-types`: one aggregate row per
distinct budget type, ordered by total amount descending. -/
def budgetTypeSummaryData (st : ServerState) : List SummaryRow :=
  (((st.rows.map (fun t => t.budget_type)).dedup).map (btStats st.rows)).insertionSort sumDesc

/-- `GET /api/summary/budget-types`. -/
def budgetTypeSummaryTx (st : ServerState) (dbe : Option String) :
    Resp × ServerState :=
  queryOr dbe st (okResp 200 (.summary (budgetTypeSummaryData st)) none none, st)

/-- The `YYYY-MM` month key of a date (`strftime` / `DATE_TRUNC`). -/
def monthOf (t : Txn) : String := t.date.take 7

/-- Ordering used by `ORDER BY month DESC, total_amount DESC`. -/
def monthTotalDesc (a b : MonthlyRow) : Prop :=
  b.month < a.month ∨ (b.month = a.month ∧ b.total_amount ≤ a.total_amount)

instance : DecidableRel monthTotalDesc := fun a b =>
  inferInstanceAs (Decidable (b.month < a.month ∨ (b.month = a.month ∧ b.total_amount ≤ a.total_amount)))

/-- One GROUP BY (month, budget_type) aggregate row. -/
def monthBtStats (rows : List Txn) (key : String × String) : MonthlyRow :=
  let amounts := (rows.filter (fun t => monthOf t = key.1 ∧ t.budget_type = key.2)).map
    (fun t => t.amount)
  { month := key.1
    budget_type := key.2
    transaction_count := amounts.length
    total_amount := qSum amounts
    avg_amount := qSum amounts / amounts.length }

/-- `GET /api/summary/monthly`. -/
def monthlySummaryTx (st : ServerState) (dbe : Option String) :
    Resp × ServerState :=
  queryOr dbe st
    (okResp 200
      (.monthly ((((st.rows.map (fun t => (monthOf t, t.budget_type))).dedup).map
        (monthBtStats st.rows)).insertionSort monthTotalDesc)) none none, st)

/-- Ordering used by `ORDER BY total_amount DESC` on category rows. -/
def catTotalDesc (a b : CategoryRow) : Prop := b.total_amount ≤ a.total_amount

instance : DecidableRel catTotalDesc := fun a b =>
  inferInstanceAs (Decidable (b.total_amount ≤ a.total_amount))

/-- One GROUP BY budget_type row of the month-restricted breakdown. -/
def catStats (rows : List Txn) (bt : String) : CategoryRow :=
  let amounts := (rows.filter (fun t => t.budget_type = bt)).map (fun t => t.amount)
  { budget_type := bt, transaction_count := amounts.length, total_amount := qSum amounts }

/-- `GET /api/analytics/category-breakdown?month=YYYY-MM`. -/
def categoryBreakdownTx (st : ServerState) (month : Option String) (dbe : Option String) :
    Resp × ServerState :=
  if ¬ optTruthy month then
    (errResp 400 "Month parameter is required (format: YYYY-MM)", st)
  else
    queryOr dbe st
      (let inMonth := st.rows.filter (fun t => monthOf t = month.getD "")
       (okResp 200
         (.categories (((inMonth.map (fun t => t.budget_type)).dedup.map
           (catStats inMonth)).insertionSort catTotalDesc)) none none, st))

/-- Ordering used by `ORDER BY month ASC`. -/
def monthAsc (a b : TrendRow) : Prop := a.month ≤ b.month

instance : DecidableRel monthAsc := fun a b =>
  inferInstanceAs (Decidable (a.month ≤ b.month))

/-- One GROUP BY month trend row. -/
def trendStats (rows : List Txn) (m : String) : TrendRow :=
  let amounts := (rows.filter (fun t => monthOf t = m)).map (fun t => t.amount)
  { month := m
    total_spending := qSum amounts
    transaction_count := amounts.length
    avg_transaction := qSum amounts / amounts.length }

/-- `GET /api/analytics/trends`. -/
def trendsTx (st : ServerState) (dbe : Option String) : Resp × ServerState :=
  queryOr dbe st
    (okResp 200
      (.trends ((((st.rows.map monthOf).dedup).map (trendStats st.rows)).insertionSort monthAsc))
      none none, st)

/-- SQL MIN over a list of strings (NULL on the empty table). -/
def sMin : List String → Option String
  | [] => none
  | a :: as => some (as.foldl min a)

/-- SQL MAX over a list of strings (NULL on the empty table). -/
def sMax : List String → Option String
  | [] => none
  | a :: as => some (as.foldl max a)

/-- `GET /api/stats/overview`: the single aggregate row over the whole
table. -/
def statsOverviewTx (st : ServerState) (dbe : Option String) : Resp × ServerState :=
  queryOr dbe st
    (let amounts := st.rows.map (fun t => t.amount)
     (okResp 200
       (.stats
         { total_transactions := st.rows.length
           total_amount := if st.rows.isEmpty then none else some (qSum amounts)
           avg_amount := if st.rows.isEmpty then none else some (qSum amounts / amounts.length)
           first_transaction := sMin (st.rows.map (fun t => t.date))
           last_transaction := sMax (st.rows.map (fun t => t.date))
           budget_types_count := ((st.rows.map (fun t => t.budget_type)).dedup).length })
       none none, st))

/-- String order as a decidable relation for sorting month and type
lists. -/
def strAsc (a b : String) : Prop := a ≤ b

instance : DecidableRel strAsc := fun a b => inferInstanceAs (Decidable (a ≤ b))

/-- Descending string order. -/
def strDesc (a b : String) : Prop := b ≤ a

instance : DecidableRel strDesc := fun a b => inferInstanceAs (Decidable (b ≤ a))

/-- `GET /api/available-months` — distinct months, newest first, as a
bare string list. -/
def availableMonthsTx (st : ServerState) (dbe : Option String) : Resp × ServerState :=
  queryOr dbe st
    (okResp 200 (.strs (((st.rows.map monthOf).dedup).insertionSort strDesc)) none none, st)

/-- `GET /api/budget-types` — distinct budget types, ascending, as a
bare string list. -/
def budgetTypesTx (st : ServerState) (dbe : Option String) : Resp × ServerState :=
  queryOr dbe st
    (okResp 200 (.strs (((st.rows.map (fun t => t.budget_type)).dedup).insertionSort strAsc))
      none none, st)

/-- An API request, one constructor per route. -/
inductive Request where
  | list : ListQuery → Request
  | getById : ℕ → Request
  | create : Body → Request
  | update : ℕ → Body → Request
  | del : ℕ → Request
  | budgetTypeSummary : Request
  | monthlySummary : Request
  | categoryBreakdown : Option String → Request
  | trends : Request
  | statsOverview : Request
  | availableMonths : Request
  | budgetTypes : Request
  | health : Request
deriving DecidableEq

/-- The whole API: dispatch a request against a state, with an optional
injected database failure. -/
def handle (st : ServerState) (req : Request) (dbe : Option String) :
    Resp × ServerState :=
  match req with
  | .list q => listTx st q dbe
  | .getById id => getTx st id dbe
  | .create b => createTx st b dbe
  | .update id b => updateTx st id b dbe
  | .del id => deleteTx st id dbe
  | .budgetTypeSummary => budgetTypeSummaryTx st dbe
  | .monthlySummary => monthlySummaryTx st dbe
  | .categoryBreakdown m => categoryBreakdownTx st m dbe
  | .trends => trendsTx st dbe
  | .statsOverview => statsOverviewTx st dbe
  | .availableMonths => availableMonthsTx st dbe
  | .budgetTypes => budgetTypesTx st dbe
  | .health => (healthResp, st)

/-- Requests whose handler executes at least one database query: all of
them except the health check, except create/update bodies rejected by
validation, and except a breakdown request without a month. -/
def reachesQuery : Request → Bool
  | .health => false
  | .create b => !(requiredMissing b) && (parseFloatJs b.amount).isSome
  | .update _ b => !(requiredMissing b) && (parseFloatJs b.amount).isSome
  | .categoryBreakdown m => optTruthy m
  | _ => true

/-- The row a valid create request stores, written without the
intermediate parse value: the amount is the parsed body amount. -/
def createdTxn (st : ServerState) (b : Body) : Txn :=
  newTxn st b ((parseFloatJs b.amount).getD 0)

example : truthy (.num 0) = false := by simp [truthy]
example : truthy (.str "") = false := by decide
example : parseFloatStr "" = none := by decide
example : parseFloatStr "12.5" = some (25 / 2) := by
  simp [parseFloatStr, parseFloatChars, digitsVal]
  norm_num
example : parseFloatJs (.num (-5)) = some (-5) := by simp [parseFloatJs]

theorem foldl_min_mem (l : List ℚ) : ∀ a : ℚ, l.foldl min a ∈ a :: l := by
  induction l with
  | nil => intro a; simp
  | cons b l ih =>
    intro a
    have h := ih (min a b)
    simp only [List.foldl_cons]
    rcases List.mem_cons.mp h with h | h
    · rcases min_choice a b with hm | hm
      · rw [h, hm]; exact List.mem_cons_self _ _
      · rw [h, hm]; exact List.mem_cons.mpr (Or.inr (List.mem_cons_self _ _))
    · exact List.mem_cons.mpr (Or.inr (List.mem_cons.mpr (Or.inr h)))

theorem foldl_min_le (l : List ℚ) : ∀ a x : ℚ, x ∈ a :: l → l.foldl min a ≤ x := by
  induction l with
  | nil => intro a x hx; simp at hx; simp [hx]
  | cons b l ih =>
    intro a x hx
    simp only [List.foldl_cons]
    rcases List.mem_cons.mp hx with h1 | hx2
    · rw [h1]; exact le_trans (ih (min a b) _ (List.mem_cons_self _ _)) (min_le_left a b)
    · rcases List.mem_cons.mp hx2 with h2 | hx3
      · rw [h2]; exact le_trans (ih (min a b) _ (List.mem_cons_self _ _)) (min_le_right a b)
      · exact ih (min a b) x (List.mem_cons.mpr (Or.inr hx3))

theorem foldl_max_mem (l : List ℚ) : ∀ a : ℚ, l.foldl max a ∈ a :: l := by
  induction l with
  | nil => intro a; simp
  | cons b l ih =>
    intro a
    have h := ih (max a b)
    simp only [List.foldl_cons]
    rcases List.mem_cons.mp h with h | h
    · rcases max_choice a b with hm | hm
      · rw [h, hm]; exact List.mem_cons_self _ _
      · rw [h, hm]; exact List.mem_cons.mpr (Or.inr (List.mem_cons_self _ _))
    · exact List.mem_cons.mpr (Or.inr (List.mem_cons.mpr (Or.inr h)))

theorem foldl_max_ge (l : List ℚ) : ∀ a x : ℚ, x ∈ a :: l → x ≤ l.foldl max a := by
  induction l with
  | nil => intro a x hx; simp at hx; simp [hx]
  | cons b l ih =>
    intro a x hx
    simp only [List.foldl_cons]
    rcases List.mem_cons.mp hx with h1 | hx2
    · rw [h1]; exact le_trans (le_max_left a b) (ih (max a b) _ (List.mem_cons_self _ _))
    · rcases List.mem_cons.mp hx2 with h2 | hx3
      · rw [h2]; exact le_trans (le_max_right a b) (ih (max a b) _ (List.mem_cons_self _ _))
      · exact ih (max a b) x (List.mem_cons.mpr (Or.inr hx3))

theorem qMin_spec (l : List ℚ) (h : l ≠ []) : qMin l ∈ l ∧ ∀ x ∈ l, qMin l ≤ x := by
  match l with
  | [] => exact absurd rfl h
  | a :: as =>
    exact ⟨foldl_min_mem as a, fun x hx => foldl_min_le as a x hx⟩

theorem qMax_spec (l : List ℚ) (h : l ≠ []) : qMax l ∈ l ∧ ∀ x ∈ l, x ≤ qMax l := by
  match l with
  | [] => exact absurd rfl h
  | a :: as =>
    exact ⟨foldl_max_mem as a, fun x hx => foldl_max_ge as a x hx⟩

/-- Empty database, first id 1. -/
def st0 : ServerState := { rows := [], nextId := 1 }

/-- A body whose amount is the JSON number 0. -/
def bZero : Body :=
  { date := some "2024-01-01", budget_type := some "Food", amount := .num 0 }

/-- A body whose amount is present (an empty string) but unparseable. -/
def bEmptyAmt : Body :=
  { date := some "2024-01-01", budget_type := some "Food", amount := .str "" }

/-- A body with a negative, three-decimal amount. -/
def bNeg : Body :=
  { date := some "2024-01-01", budget_type := some "Food", amount := .num (-5999 / 1000) }

/-- A well-formed body with an empty `name` and an omitted `payedOff`. -/
def bRound : Body :=
  { date := some "2024-02-02", name := some "", budget_type := some "Personal",
    amount := .str "12.5" }

/-- One concrete stored transaction. -/
def t1 : Txn :=
  { id := 1
    date := "2024-05-05"
    name := none
    descr := none
    budget_type := "Food"
    amount := 10
    payedOff := .bool true }

/-- A one-row database. -/
def stA : ServerState := { rows := [t1], nextId := 2 }

/-- C10: a request body whose amount is the JSON number 0 is rejected by
the shared required-fields check of both POST and PUT with HTTP 400 and the
missing-fields message, whatever the rest of the body, the state, or the
database (which is never consulted: the result is the same even under an
injected query failure), and the state is unchanged. -/
theorem amount_zero_rejected (st : ServerState) (b : Body) (id : ℕ)
    (dbe : Option String) (h : b.amount = .num 0) :
    handle st (.create b) dbe = (errResp 400 missingMsg, st) ∧
    handle st (.update id b) dbe = (errResp 400 missingMsg, st) := by
  have hm : requiredMissing b = true := by simp [requiredMissing, truthy, h]
  simp [handle, createTx, updateTx, hm]

/-- Witness for C10 at a concrete zero-amount body. -/
theorem amount_zero_rejected_witness :
    handle st0 (.create bZero) none = (errResp 400 missingMsg, st0) ∧
    handle st0 (.update 1 bZero) none = (errResp 400 missingMsg, st0) :=
  amount_zero_rejected st0 bZero 1 none rfl

/-- C9: when the body omits `payedOff`, an accepted create stores (and
returns) the new row with `payedOff = true`, and an accepted full-replace
update sets `payedOff = true` on every row carrying the id, regardless of
its previous value. -/
theorem payedOff_defaults_true (st : ServerState) (b : Body) (id : ℕ)
    (h : b.payedOff = .undefined) :
    ((handle st (.create b) none).1.status = 201 →
      (handle st (.create b) none).1.data = some (.txn (createdTxn st b)) ∧
      (createdTxn st b).payedOff = .bool true ∧
      (handle st (.create b) none).2.rows = st.rows ++ [createdTxn st b]) ∧
    ((handle st (.update id b) none).1.status = 200 →
      ∀ t ∈ (handle st (.update id b) none).2.rows, t.id = id →
        t.payedOff = .bool true) := by
  constructor
  · intro hs
    by_cases hm : requiredMissing b
    · simp [handle, createTx, hm, errResp] at hs
    · cases hp : parseFloatJs b.amount with
      | none => simp [handle, createTx, hm, hp, errResp] at hs
      | some q =>
        refine ⟨?_, ?_, ?_⟩ <;>
          simp [handle, createTx, hm, hp, queryOr, okResp, createdTxn, newTxn,
            payedOffValue, h]
  · intro hs t ht hid
    by_cases hm : requiredMissing b
    · simp [handle, updateTx, hm, errResp] at hs
    · cases hp : parseFloatJs b.amount with
      | none => simp [handle, updateTx, hm, hp, errResp] at hs
      | some q =>
        cases hf : st.rows.filter (fun t => t.id = id) with
        | nil => simp [handle, updateTx, hm, hp, hf, queryOr, errResp] at hs
        | cons u us =>
          simp [handle, updateTx, hm, hp, hf, queryOr] at ht
          obtain ⟨x, hx, hxt⟩ := ht
          by_cases hxi : x.id = id
          · rw [if_pos hxi] at hxt
            rw [← hxt]
            simp [updTxn, payedOffValue, h]
          · rw [if_neg hxi] at hxt
            rw [← hxt] at hid
            exact absurd hid hxi

/-- Witness for C9: a concrete create and a concrete update, both with an
omitted `payedOff`, both accepted (the antecedents hold), and the stored
`payedOff` is true. -/
theorem payedOff_defaults_true_witness :
    (handle st0 (.create bRound) none).1.status = 201 ∧
    (handle stA (.update 1 bRound) none).1.status = 200 ∧
    ((handle st0 (.create bRound) none).1.status = 201 →
      (handle st0 (.create bRound) none).1.data = some (.txn (createdTxn st0 bRound)) ∧
      (createdTxn st0 bRound).payedOff = .bool true ∧
      (handle st0 (.create bRound) none).2.rows = st0.rows ++ [createdTxn st0 bRound]) ∧
    ((handle stA (.update 1 bRound) none).1.status = 200 →
      ∀ t ∈ (handle stA (.update 1 bRound) none).2.rows, t.id = 1 →
        t.payedOff = .bool true) :=
  ⟨by simp [handle, createTx, requiredMissing, truthy, optTruthy, bRound, parseFloatJs,
      parseFloatStr, parseFloatChars, queryOr, okResp, st0],
   by simp [handle, updateTx, requiredMissing, truthy, optTruthy, bRound, parseFloatJs,
      parseFloatStr, parseFloatChars, queryOr, okResp, stA, t1],
   (payedOff_defaults_true st0 bRound 1 rfl).1,
   (payedOff_defaults_true stA bRound 1 rfl).2⟩

/-- C4: whenever a handler reaches its database and the query fails, the
response is HTTP 500 with `{success:false, error:m}` carrying the raw
error message, on every endpoint. -/
theorem db_failure_gives_500 (st : ServerState) (req : Request) (e : String)
    (h : reachesQuery req = true) :
    (handle st req (some e)).1 = errResp 500 e := by
  cases req with
  | create b =>
    simp only [reachesQuery, Bool.and_eq_true, Bool.not_eq_true'] at h
    obtain ⟨hm, hp⟩ := h
    obtain ⟨q, hq⟩ := Option.isSome_iff_exists.mp hp
    simp [handle, createTx, hm, hq, queryOr]
  | update id b =>
    simp only [reachesQuery, Bool.and_eq_true, Bool.not_eq_true'] at h
    obtain ⟨hm, hp⟩ := h
    obtain ⟨q, hq⟩ := Option.isSome_iff_exists.mp hp
    simp [handle, updateTx, hm, hq, queryOr]
  | categoryBreakdown m =>
    simp only [reachesQuery] at h
    simp [handle, categoryBreakdownTx, h, queryOr]
  | health => simp [reachesQuery] at h
  | _ =>
    simp [handle, listTx, getTx, deleteTx, budgetTypeSummaryTx, monthlySummaryTx,
      trendsTx, statsOverviewTx, availableMonthsTx, budgetTypesTx, queryOr]

/-- Witness for C4: a failing query under the list endpoint yields a 500
with the raw message. -/
theorem db_failure_gives_500_witness :
    (handle st0 (.list {}) (some "boom")).1 = errResp 500 "boom" :=
  db_failure_gives_500 st0 (.list {}) "boom" rfl

/-- C3 (amended): POST and PUT return 400 with the missing-fields message
whenever the required-fields check fires (date, amount or budget_type
absent or falsy), and 400 with the amount message whenever that check
passes but the amount does not parse as a number; in both cases the state
is untouched and the database is never reached (the result ignores any
injected query failure). -/
theorem validation_rejects_400 (st : ServerState) (b : Body) (id : ℕ)
    (dbe : Option String) :
    (requiredMissing b = true →
      handle st (.create b) dbe = (errResp 400 missingMsg, st) ∧
      handle st (.update id b) dbe = (errResp 400 missingMsg, st)) ∧
    (requiredMissing b = false → parseFloatJs b.amount = none →
      handle st (.create b) dbe = (errResp 400 amountMsg, st) ∧
      handle st (.update id b) dbe = (errResp 400 amountMsg, st)) := by
  constructor
  · intro hm
    simp [handle, createTx, updateTx, hm]
  · intro hm hp
    simp [handle, createTx, updateTx, hm, hp]

/-- A body lacking the amount field. -/
def bNoAmt : Body := { date := some "2024-01-01", budget_type := some "Food" }

/-- A body whose amount is a truthy but unparseable string. -/
def bBadAmt : Body :=
  { date := some "2024-01-01", budget_type := some "Food", amount := .str "x" }

/-- Witness for C3: a body lacking the amount triggers the missing-fields
400; a body whose amount is the unparseable string "x" triggers the
amount 400. -/
theorem validation_rejects_400_witness :
    (handle st0 (.create bNoAmt) none = (errResp 400 missingMsg, st0) ∧
     handle st0 (.update 1 bNoAmt) none = (errResp 400 missingMsg, st0)) ∧
    (handle st0 (.create bBadAmt) none = (errResp 400 amountMsg, st0) ∧
     handle st0 (.update 1 bBadAmt) none = (errResp 400 amountMsg, st0)) :=
  ⟨(validation_rejects_400 st0 bNoAmt 1 none).1 rfl,
   (validation_rejects_400 st0 bBadAmt 1 none).2 rfl (by decide)⟩

/-- Counterexample for C3 as stated: the body `bEmptyAmt` has an amount
field that is present (not undefined) and does not parse as a number, yet
the response message is the missing-fields one, not
"Amount must be a valid number". -/
theorem empty_amount_gets_missing_msg :
    bEmptyAmt.amount ≠ .undefined ∧
    parseFloatJs bEmptyAmt.amount = none ∧
    (handle st0 (.create bEmptyAmt) none).1 = errResp 400 missingMsg ∧
    (handle st0 (.update 1 bEmptyAmt) none).1 = errResp 400 missingMsg ∧
    missingMsg ≠ amountMsg := by
  refine ⟨by simp [bEmptyAmt], by decide, ?_, ?_, by decide⟩ <;>
    simp [handle, createTx, updateTx, requiredMissing, truthy, optTruthy, bEmptyAmt]

/-- C6: after a successful DELETE of an id, a GET of that id answers 404
"Transaction not found"; and a DELETE of an id no stored row carries
answers 404 itself and leaves the state untouched. -/
theorem delete_then_get_404 (st : ServerState) (id : ℕ) :
    ((handle st (.del id) none).1.success = true →
      (handle ((handle st (.del id) none).2) (.getById id) none).1 =
        errResp 404 "Transaction not found") ∧
    ((∀ t ∈ st.rows, t.id ≠ id) →
      handle st (.del id) none = (errResp 404 "Transaction not found", st)) := by
  constructor
  · intro hs
    cases hf : st.rows.filter (fun t => t.id = id) with
    | nil => simp [handle, deleteTx, queryOr, hf, errResp] at hs
    | cons u us =>
      have hempty :
          (st.rows.filter (fun t => ¬ t.id = id)).filter (fun t => t.id = id) = [] := by
        refine List.filter_eq_nil_iff.mpr ?_
        intro t ht
        have := List.of_mem_filter ht
        simpa using this
      simp [handle, deleteTx, getTx, queryOr, hf, hempty]
  · intro hnone
    have hf : st.rows.filter (fun t => t.id = id) = [] := by
      refine List.filter_eq_nil_iff.mpr ?_
      intro t ht
      simpa using hnone t ht
    simp [handle, deleteTx, queryOr, hf]

/-- Witness for C6: deleting the stored row with id 1 succeeds and the
subsequent fetch of id 1 is a 404; deleting the absent id 7 is a 404 that
leaves the state unchanged. -/
theorem delete_then_get_404_witness :
    (handle stA (.del 1) none).1.success = true ∧
    ((handle stA (.del 1) none).1.success = true →
      (handle ((handle stA (.del 1) none).2) (.getById 1) none).1 =
        errResp 404 "Transaction not found") ∧
    ((∀ t ∈ stA.rows, t.id ≠ 7) →
      handle stA (.del 7) none = (errResp 404 "Transaction not found", stA)) ∧
    (∀ t ∈ stA.rows, t.id ≠ 7) :=
  ⟨by simp [handle, deleteTx, queryOr, stA, t1, okResp],
   (delete_then_get_404 stA 1).1,
   (delete_then_get_404 stA 7).2,
   by simp [stA, t1]⟩

/-- C1 (amended): every body accepted by POST (201) or PUT (200) has a
truthy date, budget_type and amount, and the stored amount is exactly the
`parseFloat` of the body amount — which need not be positive, nor of
two-decimal precision. -/
theorem accepted_body_shape (st : ServerState) (b : Body) (id : ℕ) :
    ((handle st (.create b) none).1.status = 201 →
      optTruthy b.date = true ∧ optTruthy b.budget_type = true ∧
      truthy b.amount = true ∧
      parseFloatJs b.amount = some (createdTxn st b).amount ∧
      (handle st (.create b) none).2.rows = st.rows ++ [createdTxn st b]) ∧
    ((handle st (.update id b) none).1.status = 200 →
      optTruthy b.date = true ∧ optTruthy b.budget_type = true ∧
      truthy b.amount = true ∧
      ∀ t ∈ (handle st (.update id b) none).2.rows, t.id = id →
        parseFloatJs b.amount = some t.amount) := by
  constructor
  · intro hs
    cases hm : requiredMissing b with
    | true => simp [handle, createTx, hm, errResp] at hs
    | false =>
      have hfields := hm
      simp only [requiredMissing, Bool.or_eq_false_iff, Bool.not_eq_false'] at hfields
      cases hp : parseFloatJs b.amount with
      | none => simp [handle, createTx, hm, hp, errResp] at hs
      | some q =>
        refine ⟨hfields.1.1, hfields.2, hfields.1.2, ?_, ?_⟩ <;>
          simp [handle, createTx, hm, hp, queryOr, createdTxn, newTxn]
  · intro hs
    cases hm : requiredMissing b with
    | true => simp [handle, updateTx, hm, errResp] at hs
    | false =>
      have hfields := hm
      simp only [requiredMissing, Bool.or_eq_false_iff, Bool.not_eq_false'] at hfields
      cases hp : parseFloatJs b.amount with
      | none => simp [handle, updateTx, hm, hp, errResp] at hs
      | some q =>
        refine ⟨hfields.1.1, hfields.2, hfields.1.2, ?_⟩
        intro t ht hid
        cases hf : st.rows.filter (fun t => t.id = id) with
        | nil => simp [handle, updateTx, hm, hp, hf, queryOr, errResp] at hs
        | cons u us =>
          simp [handle, updateTx, hm, hp, hf, queryOr] at ht
          obtain ⟨x, hx, hxt⟩ := ht
          by_cases hxi : x.id = id
          · rw [if_pos hxi] at hxt
            rw [← hxt]
            simp [updTxn, hp]
          · rw [if_neg hxi] at hxt
            rw [← hxt] at hid
            exact absurd hid hxi

/-- Witness for C1 (amended) at a concrete accepted create and update. -/
theorem accepted_body_shape_witness :
    (handle st0 (.create bRound) none).1.status = 201 ∧
    (handle stA (.update 1 bRound) none).1.status = 200 ∧
    ((handle st0 (.create bRound) none).1.status = 201 →
      optTruthy bRound.date = true ∧ optTruthy bRound.budget_type = true ∧
      truthy bRound.amount = true ∧
      parseFloatJs bRound.amount = some (createdTxn st0 bRound).amount ∧
      (handle st0 (.create bRound) none).2.rows = st0.rows ++ [createdTxn st0 bRound]) ∧
    ((handle stA (.update 1 bRound) none).1.status = 200 →
      optTruthy bRound.date = true ∧ optTruthy bRound.budget_type = true ∧
      truthy bRound.amount = true ∧
      ∀ t ∈ (handle stA (.update 1 bRound) none).2.rows, t.id = 1 →
        parseFloatJs bRound.amount = some t.amount) :=
  ⟨by simp [handle, createTx, requiredMissing, truthy, optTruthy, bRound, parseFloatJs,
      parseFloatStr, parseFloatChars, queryOr, okResp, st0],
   by simp [handle, updateTx, requiredMissing, truthy, optTruthy, bRound, parseFloatJs,
      parseFloatStr, parseFloatChars, queryOr, okResp, stA, t1],
   (accepted_body_shape st0 bRound 1).1,
   (accepted_body_shape stA bRound 1).2⟩

/-- Counterexample for C1 as stated: the body `bNeg` is accepted by POST
and stored with amount -5.999, which is neither positive nor of
two-decimal precision (100 times it is not an integer). -/
theorem negative_amount_stored :
    (handle st0 (.create bNeg) none).1.status = 201 ∧
    (handle st0 (.create bNeg) none).2.rows.map (fun t => t.amount) = [-5999 / 1000] ∧
    ¬ (0 < (-5999 / 1000 : ℚ)) ∧
    ¬ ∃ n : ℤ, ((-5999 / 1000 : ℚ) * 100) = (n : ℚ) := by
  refine ⟨?_, ?_, by norm_num, ?_⟩
  · simp [handle, createTx, requiredMissing, truthy, optTruthy, parseFloatJs, bNeg, st0,
      queryOr, okResp, bne_iff_ne]
  · simp [handle, createTx, requiredMissing, truthy, optTruthy, parseFloatJs, bNeg, st0,
      queryOr, okResp, newTxn, bne_iff_ne]
  · rintro ⟨n, hn⟩
    have h1 : ((10 * n : ℤ) : ℚ) = -5999 := by
      push_cast
      rw [← hn]
      ring
    have h2 : (10 * n : ℤ) = -5999 := by exact_mod_cast h1
    omega

/-- C2 (amended): every response of every endpoint has a boolean
`success`; `error` is present exactly when `success` is false; and `data`
is present whenever `success` is true — except on the health check, whose
success body carries `message` and `database` but no `data`. -/
theorem envelope_shape (st : ServerState) (req : Request) (dbe : Option String) :
    ((handle st req dbe).1.success = true → (handle st req dbe).1.error = none) ∧
    ((handle st req dbe).1.success = false →
      ((handle st req dbe).1.error).isSome = true) ∧
    ((handle st req dbe).1.success = true → req ≠ .health →
      ((handle st req dbe).1.data).isSome = true) := by
  cases req <;> cases dbe <;>
    simp only [handle, listTx, getTx, createTx, updateTx, deleteTx, budgetTypeSummaryTx,
      monthlySummaryTx, categoryBreakdownTx, trendsTx, statsOverviewTx, availableMonthsTx,
      budgetTypesTx, queryOr] <;>
    (repeat' split) <;>
    simp [errResp, okResp, healthResp]

/-- Witness for C2 (amended): a successful list response and a failing
fetch response, checked against the envelope theorem. -/
theorem envelope_shape_witness :
    (handle st0 (.list {}) none).1.success = true ∧
    (handle st0 (.getById 1) none).1.success = false ∧
    ((handle st0 (.list {}) none).1.success = true →
      Request.list {} ≠ Request.health →
      ((handle st0 (.list {}) none).1.data).isSome = true) ∧
    ((handle st0 (.getById 1) none).1.success = false →
      ((handle st0 (.getById 1) none).1.error).isSome = true) :=
  ⟨by simp [handle, listTx, queryOr, okResp],
   by simp [handle, getTx, queryOr, st0, errResp],
   (envelope_shape st0 (.list {}) none).2.2,
   (envelope_shape st0 (.getById 1) none).2.1⟩

/-- Counterexample for C2 as stated: the health check succeeds but its
response has no `data` field at all. -/
theorem health_has_no_data :
    (handle st0 .health none).1.success = true ∧
    (handle st0 .health none).1.data = none := by
  simp [handle, healthResp]

theorem optTruthy_getD (o : Option String) (h : optTruthy o = true) :
    some (o.getD "") = o := by
  cases o with
  | none => simp [optTruthy] at h
  | some s => simp

/-- C5 (amended): a body accepted by POST yields a 201 whose data is the
created row; fetching that row's fresh id afterwards answers 200 with the
very same row, whose fields are the accepted ones — date and budget_type
as given, name and description nulled when omitted or empty, amount the
parsed body amount, payedOff the given value or true when omitted. -/
theorem create_then_get_roundtrip (st : ServerState) (b : Body) (wf : WF st)
    (hacc : (handle st (.create b) none).1.status = 201) :
    (handle st (.create b) none).1.data = some (.txn (createdTxn st b)) ∧
    (handle ((handle st (.create b) none).2) (.getById (createdTxn st b).id) none).1 =
      okResp 200 (.txn (createdTxn st b)) none none ∧
    some (createdTxn st b).date = b.date ∧
    (createdTxn st b).name = (if optTruthy b.name then b.name else none) ∧
    (createdTxn st b).descr = (if optTruthy b.descr then b.descr else none) ∧
    some (createdTxn st b).budget_type = b.budget_type ∧
    some (createdTxn st b).amount = parseFloatJs b.amount ∧
    (createdTxn st b).payedOff = payedOffValue b := by
  cases hm : requiredMissing b with
  | true => simp [handle, createTx, hm, errResp] at hacc
  | false =>
    have hfields := hm
    simp only [requiredMissing, Bool.or_eq_false_iff, Bool.not_eq_false'] at hfields
    cases hp : parseFloatJs b.amount with
    | none => simp [handle, createTx, hm, hp, errResp] at hacc
    | some q =>
      have hfilter : st.rows.filter (fun t => t.id = st.nextId) = [] := by
        refine List.filter_eq_nil_iff.mpr ?_
        intro t ht
        simpa using Nat.ne_of_lt (wf t ht)
      refine ⟨?_, ?_, ?_, ?_, ?_, ?_, ?_, ?_⟩
      · simp [handle, createTx, hm, hp, queryOr, createdTxn, okResp]
      · simp [handle, createTx, getTx, hm, hp, queryOr, createdTxn, newTxn,
          List.filter_append, hfilter, okResp]
      · exact optTruthy_getD b.date hfields.1.1
      · simp [createdTxn, newTxn]
      · simp [createdTxn, newTxn]
      · exact optTruthy_getD b.budget_type hfields.2
      · simp [createdTxn, newTxn, hp]
      · simp [createdTxn, newTxn]

/-- Witness for C5 (amended): the concrete body `bRound` is accepted on
the empty database and round-trips. -/
theorem create_then_get_roundtrip_witness :
    (handle st0 (.create bRound) none).1.data = some (.txn (createdTxn st0 bRound)) ∧
    (handle ((handle st0 (.create bRound) none).2)
        (.getById (createdTxn st0 bRound).id) none).1 =
      okResp 200 (.txn (createdTxn st0 bRound)) none none ∧
    some (createdTxn st0 bRound).date = bRound.date ∧
    (createdTxn st0 bRound).name = (if optTruthy bRound.name then bRound.name else none) ∧
    (createdTxn st0 bRound).descr =
      (if optTruthy bRound.descr then bRound.descr else none) ∧
    some (createdTxn st0 bRound).budget_type = bRound.budget_type ∧
    some (createdTxn st0 bRound).amount = parseFloatJs bRound.amount ∧
    (createdTxn st0 bRound).payedOff = payedOffValue bRound :=
  create_then_get_roundtrip st0 bRound (by simp [WF, st0])
    (by simp [handle, createTx, requiredMissing, truthy, optTruthy, bRound, parseFloatJs,
      parseFloatStr, parseFloatChars, queryOr, okResp, st0])

/-- Counterexample for C5 as stated: `bRound` is accepted with name `""`
and `payedOff` omitted, but the row returned by the subsequent fetch has
`name = null` and `payedOff = true`, both different from the accepted
values. -/
theorem empty_name_not_roundtripped :
    bRound.name = some "" ∧
    bRound.payedOff = .undefined ∧
    (handle st0 (.create bRound) none).1.status = 201 ∧
    (handle ((handle st0 (.create bRound) none).2)
        (.getById (createdTxn st0 bRound).id) none).1 =
      okResp 200 (.txn (createdTxn st0 bRound)) none none ∧
    (createdTxn st0 bRound).name = none ∧
    (createdTxn st0 bRound).payedOff = .bool true ∧
    (createdTxn st0 bRound).name ≠ bRound.name ∧
    (createdTxn st0 bRound).payedOff ≠ bRound.payedOff := by
  refine ⟨rfl, rfl, ?_, ?_, ?_, ?_, ?_, ?_⟩ <;>
    simp [handle, createTx, getTx, requiredMissing, truthy, optTruthy, bRound, parseFloatJs,
      parseFloatStr, parseFloatChars, queryOr, okResp, st0, createdTxn, newTxn,
      payedOffValue, List.filter_append]

/-- C7 (amended): every row the list endpoint returns satisfies each
filter whose parameter is given as a nonempty string; the rows are
ordered by date descending; there are at most `limit` of them (default
100); and they form a contiguous block of the sorted filtered rows
(the block after skipping `offset`, default 0). -/
theorem list_filter_sound (st : ServerState) (q : ListQuery) :
    (∀ t ∈ listData st q,
      (∀ bt, q.budget_type = some bt → bt ≠ "" → t.budget_type = bt) ∧
      (∀ sd, q.start_date = some sd → sd ≠ "" → sd ≤ t.date) ∧
      (∀ ed, q.end_date = some ed → ed ≠ "" → t.date ≤ ed)) ∧
    List.Sorted dateDesc (listData st q) ∧
    (listData st q).length ≤ q.limit.getD 100 ∧
    listData st q <:+: (st.rows.filter (matchesFilters q)).insertionSort dateDesc ∧
    (handle st (.list q) none).1 =
      okResp 200 (.txns (listData st q)) none (some (listData st q).length) := by
  refine ⟨?_, ?_, ?_, ?_, ?_⟩
  · intro t ht
    have hsub : List.Sublist (listData st q)
        ((st.rows.filter (matchesFilters q)).insertionSort dateDesc) :=
      (List.take_sublist _ _).trans (List.drop_sublist _ _)
    have hts : t ∈ (st.rows.filter (matchesFilters q)).insertionSort dateDesc :=
      hsub.subset ht
    have hmf : matchesFilters q t = true :=
      (List.mem_filter.mp ((List.mem_insertionSort _).mp hts)).2
    simp only [matchesFilters, Bool.and_eq_true] at hmf
    obtain ⟨⟨h1, h2⟩, h3⟩ := hmf
    refine ⟨?_, ?_, ?_⟩
    · intro bt hbt hne
      rw [hbt] at h1
      simpa [optTruthy, hne] using h1
    · intro sd hsd hne
      rw [hsd] at h2
      simpa [optTruthy, hne] using h2
    · intro ed hed hne
      rw [hed] at h3
      simpa [optTruthy, hne] using h3
  · have hsorted : List.Sorted dateDesc
        ((st.rows.filter (matchesFilters q)).insertionSort dateDesc) :=
      List.sorted_insertionSort dateDesc _
    exact hsorted.sublist ((List.take_sublist _ _).trans (List.drop_sublist _ _))
  · exact List.length_take_le _ _
  · refine ⟨((st.rows.filter (matchesFilters q)).insertionSort dateDesc).take (q.offset.getD 0),
      (((st.rows.filter (matchesFilters q)).insertionSort dateDesc).drop
        (q.offset.getD 0)).drop (q.limit.getD 100), ?_⟩
    simp only [listData]
    rw [List.append_assoc, List.take_append_drop, List.take_append_drop]
  · simp [handle, listTx, queryOr]

/-- A list query with a start-date filter. -/
def qW : ListQuery := { start_date := some "2024-01-01" }

/-- Witness for C7 (amended) at a concrete one-row state and a start-date
filter that returns that row. -/
theorem list_filter_sound_witness :
    listData stA qW = [t1] ∧
    ((∀ t ∈ listData stA qW,
      (∀ bt, qW.budget_type = some bt → bt ≠ "" → t.budget_type = bt) ∧
      (∀ sd, qW.start_date = some sd → sd ≠ "" → sd ≤ t.date) ∧
      (∀ ed, qW.end_date = some ed → ed ≠ "" → t.date ≤ ed)) ∧
    List.Sorted dateDesc (listData stA qW) ∧
    (listData stA qW).length ≤ qW.limit.getD 100 ∧
    listData stA qW <:+: (stA.rows.filter (matchesFilters qW)).insertionSort dateDesc ∧
    (handle stA (.list qW) none).1 =
      okResp 200 (.txns (listData stA qW)) none (some (listData stA qW).length)) :=
  ⟨by
    have hle : ("2024-01-01" : String) ≤ "2024-05-05" := by
      rw [String.le_iff_toList_le]
      decide
    simp [listData, matchesFilters, optTruthy, stA, qW, List.insertionSort,
      List.orderedInsert, t1, hle],
   list_filter_sound stA qW⟩

/-- A list query whose budget_type and end_date parameters are given but
empty. -/
def qE : ListQuery := { budget_type := some "", end_date := some "" }

/-- Counterexample for C7 as stated: with `budget_type=""` and
`end_date=""` both given, the one stored row is returned even though its
budget_type differs from "" and its date is not ≤ "": empty-string
parameters disable the filters. -/
theorem empty_filter_params_ignored :
    qE.budget_type = some "" ∧
    qE.end_date = some "" ∧
    (handle stA (.list qE) none).1 = okResp 200 (.txns [t1]) none (some 1) ∧
    t1.budget_type ≠ "" ∧
    ¬ (t1.date ≤ "") := by
  refine ⟨rfl, rfl, ?_, by decide, ?_⟩
  · simp [handle, listTx, queryOr, listData, matchesFilters, optTruthy, stA, qE,
      List.insertionSort, List.orderedInsert]
  · rw [show t1.date = "2024-05-05" from rfl, String.le_iff_toList_le]
    decide

theorem map_budget_type_btStats (rows : List Txn) (l : List String) :
    (l.map (btStats rows)).map (fun r => r.budget_type) = l := by
  induction l with
  | nil => simp
  | cons b l ih => simp [btStats, ih]

theorem btAmounts_ne_nil (rows : List Txn) (bt : String)
    (h : ∃ t ∈ rows, t.budget_type = bt) : btAmounts rows bt ≠ [] := by
  obtain ⟨t, ht, htbt⟩ := h
  have hmem : t.amount ∈ btAmounts rows bt :=
    List.mem_map_of_mem (fun t => t.amount) (List.mem_filter.mpr ⟨ht, by simp [htbt]⟩)
  exact List.ne_nil_of_mem hmem

/-- C8: the budget-type summary has exactly one row per distinct
budget_type of the stored rows; each row's count, total, average, min and
max are the corresponding aggregates of the amounts of the transactions of
that budget_type; and the rows are ordered by total amount descending. -/
theorem budget_summary_correct (st : ServerState) :
    ((budgetTypeSummaryData st).map (fun r => r.budget_type)).Nodup ∧
    (∀ bt : String,
      (∃ r ∈ budgetTypeSummaryData st, r.budget_type = bt) ↔
      (∃ t ∈ st.rows, t.budget_type = bt)) ∧
    (∀ r ∈ budgetTypeSummaryData st,
      r.transaction_count =
        (st.rows.filter (fun t => t.budget_type = r.budget_type)).length ∧
      r.total_amount = qSum (btAmounts st.rows r.budget_type) ∧
      r.avg_amount = r.total_amount / r.transaction_count ∧
      r.min_amount ∈ btAmounts st.rows r.budget_type ∧
      (∀ x ∈ btAmounts st.rows r.budget_type, r.min_amount ≤ x) ∧
      r.max_amount ∈ btAmounts st.rows r.budget_type ∧
      (∀ x ∈ btAmounts st.rows r.budget_type, x ≤ r.max_amount)) ∧
    List.Sorted sumDesc (budgetTypeSummaryData st) ∧
    (handle st .budgetTypeSummary none).1 =
      okResp 200 (.summary (budgetTypeSummaryData st)) none none := by
  have hperm : List.Perm (budgetTypeSummaryData st)
      (((st.rows.map (fun t => t.budget_type)).dedup).map (btStats st.rows)) :=
    List.perm_insertionSort _ _
  have hmapeq : List.Perm ((budgetTypeSummaryData st).map (fun r => r.budget_type))
      ((st.rows.map (fun t => t.budget_type)).dedup) := by
    have := hperm.map (fun r => r.budget_type)
    rwa [map_budget_type_btStats] at this
  refine ⟨?_, ?_, ?_, ?_, ?_⟩
  · exact hmapeq.nodup_iff.mpr (List.nodup_dedup _)
  · intro bt
    constructor
    · rintro ⟨r, hr, hbt⟩
      have : bt ∈ (budgetTypeSummaryData st).map (fun r => r.budget_type) :=
        List.mem_map.mpr ⟨r, hr, hbt⟩
      have hdd : bt ∈ (st.rows.map (fun t => t.budget_type)).dedup := hmapeq.mem_iff.mp this
      obtain ⟨t, ht, htbt⟩ := List.mem_map.mp (List.mem_dedup.mp hdd)
      exact ⟨t, ht, htbt⟩
    · rintro ⟨t, ht, htbt⟩
      have hdd : bt ∈ (st.rows.map (fun t => t.budget_type)).dedup :=
        List.mem_dedup.mpr (List.mem_map.mpr ⟨t, ht, htbt⟩)
      have : bt ∈ (budgetTypeSummaryData st).map (fun r => r.budget_type) :=
        hmapeq.mem_iff.mpr hdd
      obtain ⟨r, hr, hrbt⟩ := List.mem_map.mp this
      exact ⟨r, hr, hrbt⟩
  · intro r hr
    obtain ⟨bt, hbtd, hbts⟩ := List.mem_map.mp (hperm.mem_iff.mp hr)
    have hne : btAmounts st.rows bt ≠ [] := by
      refine btAmounts_ne_nil st.rows bt ?_
      obtain ⟨t, ht, htbt⟩ := List.mem_map.mp (List.mem_dedup.mp hbtd)
      exact ⟨t, ht, htbt⟩
    have hmin := qMin_spec _ hne
    have hmax := qMax_spec _ hne
    refine ⟨?_, ?_, ?_, ?_, ?_, ?_, ?_⟩ <;> rw [← hbts]
    · simp [btStats, btAmounts]
    · simp [btStats]
    · simp [btStats, btAmounts]
    · simpa [btStats] using hmin.1
    · simpa [btStats] using hmin.2
    · simpa [btStats] using hmax.1
    · simpa [btStats] using hmax.2
  · exact List.sorted_insertionSort sumDesc _
  · simp [handle, budgetTypeSummaryTx, queryOr]

/-- Witness for C8 at a concrete one-row state. -/
theorem budget_summary_correct_witness :
    ((budgetTypeSummaryData stA).map (fun r => r.budget_type)).Nodup ∧
    (∀ bt : String,
      (∃ r ∈ budgetTypeSummaryData stA, r.budget_type = bt) ↔
      (∃ t ∈ stA.rows, t.budget_type = bt)) ∧
    (∀ r ∈ budgetTypeSummaryData stA,
      r.transaction_count =
        (stA.rows.filter (fun t => t.budget_type = r.budget_type)).length ∧
      r.total_amount = qSum (btAmounts stA.rows r.budget_type) ∧
      r.avg_amount = r.total_amount / r.transaction_count ∧
      r.min_amount ∈ btAmounts stA.rows r.budget_type ∧
      (∀ x ∈ btAmounts stA.rows r.budget_type, r.min_amount ≤ x) ∧
      r.max_amount ∈ btAmounts stA.rows r.budget_type ∧
      (∀ x ∈ btAmounts stA.rows r.budget_type, x ≤ r.max_amount)) ∧
    List.Sorted sumDesc (budgetTypeSummaryData stA) ∧
    (handle stA .budgetTypeSummary none).1 =
      okResp 200 (.summary (budgetTypeSummaryData stA)) none none :=
  budget_summary_correct stA
